import Mathlib

/-!
A shallow embedding of the SEI SOAP client library (`src/seiws/client.py` and
`src/seiws/helpers.py`).

Python values flowing through the client are modelled by `PyVal`; the SOAP
transport (the `cliente_soap` object) is modelled as a function from a service
call to a result; the per-instance `functools.cached_property` state is passed
around explicitly in `ClientState`; and every method returns, besides its
result (`Except PyErr α`, modelling Python's raise/return), the updated cache
state and the ordered list of remote calls the invocation dispatched.
-/

mutual

/-- A Python value as it appears in this client: `None`, strings, integers,
lists and dicts (zeep deserialises SOAP responses into such values). -/
inductive PyVal where
  | none : PyVal
  | str : String → PyVal
  | int : Int → PyVal
  | list : PyList → PyVal
  | dict : PyDict → PyVal
deriving DecidableEq, Repr

/-- A Python list of `PyVal`s. -/
inductive PyList where
  | nil : PyList
  | cons : PyVal → PyList → PyList
deriving DecidableEq, Repr

/-- A Python dict with `PyVal` keys and values (keys are unique in a real
Python dict; lookups return the first binding). -/
inductive PyDict where
  | nil : PyDict
  | cons : PyVal → PyVal → PyDict → PyDict
deriving DecidableEq, Repr

end

/-- Convert an embedded Python list to a Lean list. -/
def PyList.toList : PyList → List PyVal
  | .nil => []
  | .cons x xs => x :: xs.toList

/-- Build an embedded Python list from a Lean list. -/
def PyList.ofList : List PyVal → PyList
  | [] => .nil
  | x :: xs => .cons x (PyList.ofList xs)

/-- First binding of a key in an embedded Python dict. -/
def PyDict.find : PyDict → PyVal → Option PyVal
  | .nil, _ => Option.none
  | .cons k v rest, key => if k = key then some v else rest.find key

/-- The keys of an embedded Python dict, in order. -/
def PyDict.keys : PyDict → List PyVal
  | .nil => []
  | .cons k _ rest => k :: rest.keys

/-- A Python exception as raised by the client code: `ValueError`,
`AssertionError`, `KeyError` (carrying the missing key), `TypeError`,
`NameError`, the library's own `InvalidAmbienteError` / `InvalidWSDLError`
(from `src/seiws/exceptions.py`), and `fault` for arbitrary transport-level
failures (SOAP faults, network errors) raised by the zeep operation call. -/
inductive PyErr where
  | valueError : String → PyErr
  | assertionError : String → PyErr
  | keyError : PyVal → PyErr
  | typeError : String → PyErr
  | nameError : String → PyErr
  | invalidAmbiente : String → PyErr
  | invalidWsdl : String → PyErr
  | fault : String → PyErr
deriving DecidableEq, Repr

/-- One remote invocation as dispatched by `SeiClient._chamar_servico`:
the operation name and its keyword arguments (duplicate keywords cannot
occur in a dispatched Python call). -/
structure ServiceCall where
  operacao : String
  parametros : List (String × PyVal)
deriving DecidableEq, Repr

/-- A directory table built by a `cached_property` comprehension such as
`{d["Sigla"]: d for d in self.listar_unidades()}`: a Python dict from key
values to the full record. -/
abbrev Table := List (PyVal × PyVal)

/-- First binding of a key in a table (Python dict lookup). -/
def dictGet : Table → PyVal → Option PyVal
  | [], _ => Option.none
  | (k, v) :: rest, key => if k = key then some v else dictGet rest key

/-- Python dict insertion: replace an existing binding in place, otherwise
append at the end (comprehensions let later records overwrite earlier ones). -/
def dictSet : Table → PyVal → PyVal → Table
  | [], key, val => [(key, val)]
  | (k, v) :: rest, key, val =>
    if k = key then (key, val) :: rest else (k, v) :: dictSet rest key val

/-- Whether a Python value may be used as a dict key (lists and dicts are
unhashable). -/
def hashable : PyVal → Bool
  | .list _ => false
  | .dict _ => false
  | _ => true

/-- Python subscript `x[k]`: a dict lookup (`KeyError` when the key is
absent); subscripting a non-dict value with a string key raises `TypeError`. -/
def pyIndex (x : PyVal) (k : PyVal) : Except PyErr PyVal :=
  match x with
  | .dict d =>
    match d.find k with
    | some v => Except.ok v
    | Option.none => Except.error (.keyError k)
  | _ => Except.error (.typeError "object is not subscriptable")

/-- Left fold of the dict comprehension `{d[keyName]: d for d in xs}`. -/
def buildTableAux (keyName : String) (acc : Table) : List PyVal → Except PyErr Table
  | [] => Except.ok acc
  | d :: rest =>
    match pyIndex d (PyVal.str keyName) with
    | Except.error e => Except.error e
    | Except.ok k =>
      if hashable k then buildTableAux keyName (dictSet acc k d) rest
      else Except.error (.typeError "unhashable type")

/-- The dict comprehension `{d[keyName]: d for d in xs}` used by the
`cached_property` table builders (client.py lines 1334-1356). -/
def buildTable (keyName : String) (xs : List PyVal) : Except PyErr Table :=
  buildTableAux keyName [] xs

/-- Python iteration over a value: lists yield their elements, strings yield
their characters as one-character strings, dicts yield their keys; other
values raise `TypeError`. -/
def asIter : PyVal → Except PyErr (List PyVal)
  | .list xs => Except.ok xs.toList
  | .str s => Except.ok (s.data.map (fun ch => PyVal.str (String.singleton ch)))
  | .dict d => Except.ok d.keys
  | _ => Except.error (.typeError "object is not iterable")

/-- The mutable per-instance state of a `SeiClient`: the four
`functools.cached_property` directory tables (`unidades`, `usuarios`,
`documentos`, `paises`), each `Option.none` until first populated. -/
structure ClientState where
  unidades_cache : Option Table
  usuarios_cache : Option Table
  documentos_cache : Option Table
  paises_cache : Option Table
deriving DecidableEq, Repr

/-- Store a freshly built unit table (what `cached_property` does on first
successful access to `unidades`). -/
def setUnidades (t : Table) (s : ClientState) : ClientState :=
  ⟨some t, s.usuarios_cache, s.documentos_cache, s.paises_cache⟩

/-- Store a freshly built user table. -/
def setUsuarios (t : Table) (s : ClientState) : ClientState :=
  ⟨s.unidades_cache, some t, s.documentos_cache, s.paises_cache⟩

/-- Store a freshly built document-series table. -/
def setDocumentos (t : Table) (s : ClientState) : ClientState :=
  ⟨s.unidades_cache, s.usuarios_cache, some t, s.paises_cache⟩

/-- Store a freshly built country table. -/
def setPaises (t : Table) (s : ClientState) : ClientState :=
  ⟨s.unidades_cache, s.usuarios_cache, s.documentos_cache, some t⟩

/-- The state of a freshly constructed client: no table populated yet. -/
def estadoInicial : ClientState :=
  ⟨Option.none, Option.none, Option.none, Option.none⟩

/-- The immutable session data of a `SeiClient` (client.py lines 27-49):
the SOAP transport, `sigla_sistema` (SiglaSistema), `chave_api`
(IdentificacaoServico), the unit acronym and the unit ID resolved at
construction time. -/
structure SeiClient where
  transport : ServiceCall → Except PyErr PyVal
  sigla_sistema : String
  chave_api : String
  sigla_unidade : String
  id_unidade : PyVal

/-- The outcome of running one client method: the Python result or exception,
the cache state afterwards, and the remote calls dispatched, in order. -/
structure SeiRes (α : Type) where
  res : Except PyErr α
  state : ClientState
  log : List ServiceCall

/-- Sequencing of client steps: on an exception the rest of the method body
does not run; otherwise the logs concatenate. -/
def SeiRes.bind {α β : Type} (r : SeiRes α) (f : α → ClientState → SeiRes β) : SeiRes β :=
  match r.res with
  | Except.error e => ⟨Except.error e, r.state, r.log⟩
  | Except.ok a => ⟨(f a r.state).res, (f a r.state).state, r.log ++ (f a r.state).log⟩

/-- Apply a pure transform to the result of a step (e.g. the `== "1"`
coercion applied to a remote response). -/
def SeiRes.mapRes {α β : Type} (r : SeiRes α) (f : α → β) : SeiRes β :=
  ⟨r.res.map f, r.state, r.log⟩

/-- The keyword arguments of the dispatched zeep call in
`SeiClient._chamar_servico` (client.py lines 62-66): `SiglaSistema` and
`IdentificacaoServico` come from the session, followed by the caller's
keyword arguments. -/
def mkCall (c : SeiClient) (nome_operacao : String)
    (kwargs : List (String × PyVal)) : ServiceCall :=
  ⟨nome_operacao,
    ("SiglaSistema", PyVal.str c.sigla_sistema) ::
    ("IdentificacaoServico", PyVal.str c.chave_api) :: kwargs⟩

/-- `SeiClient._chamar_servico` (client.py lines 51-71).  If the caller's
keyword arguments themselves contain `SiglaSistema` or
`IdentificacaoServico`, the Python call expression
`operacao(SiglaSistema=..., IdentificacaoServico=..., **kwargs)` raises
`TypeError` ("got multiple values for keyword argument") before any remote
dispatch.  Otherwise the operation is invoked once; a transport failure is
logged and re-raised unchanged (`raise` with no argument). -/
def chamar_servico (c : SeiClient) (st : ClientState) (nome_operacao : String)
    (kwargs : List (String × PyVal)) : SeiRes PyVal :=
  if kwargs.any (fun p => p.1 == "SiglaSistema" || p.1 == "IdentificacaoServico") then
    ⟨Except.error (.typeError "got multiple values for keyword argument"), st, []⟩
  else
    match c.transport (mkCall c nome_operacao kwargs) with
    | Except.ok resposta => ⟨Except.ok resposta, st, [mkCall c nome_operacao kwargs]⟩
    | Except.error e => ⟨Except.error e, st, [mkCall c nome_operacao kwargs]⟩

/-- `SeiClient.listar_unidades` (client.py lines 1101-1123) at its default
arguments (both filters empty, so no document-type resolution happens): the
instance invoked by the `unidades` cached property.  The general form with
the document-type filter is `listar_unidades` further below. -/
def listar_unidades_padrao (c : SeiClient) (st : ClientState) : SeiRes PyVal :=
  chamar_servico c st "listarUnidades"
    [("IdTipoProcedimento", PyVal.str ""), ("IdSerie", PyVal.str "")]

/-- Shared shape of the four `cached_property` bodies (client.py lines
1334-1356): run the listing call, iterate the response, build the
`{d[keyName]: d for d in ...}` table and store it; on any exception nothing
is cached (a `cached_property` stores only on successful return). -/
def populaTabela (keyName : String) (r : SeiRes PyVal)
    (store : Table → ClientState → ClientState) : SeiRes Table :=
  match r.res with
  | Except.error e => ⟨Except.error e, r.state, r.log⟩
  | Except.ok resp =>
    match asIter resp with
    | Except.error e => ⟨Except.error e, r.state, r.log⟩
    | Except.ok xs =>
      match buildTable keyName xs with
      | Except.error e => ⟨Except.error e, r.state, r.log⟩
      | Except.ok t => ⟨Except.ok t, store t r.state, r.log⟩

/-- The `unidades` cached property (client.py lines 1350-1352):
`{d["Sigla"]: d for d in self.listar_unidades()}`, computed once and reused
from the instance afterwards. -/
def unidades (c : SeiClient) (st : ClientState) : SeiRes Table :=
  match st.unidades_cache with
  | some t => ⟨Except.ok t, st, []⟩
  | Option.none => populaTabela "Sigla" (listar_unidades_padrao c st) setUnidades

/-- `SeiClient._validar_unidade` (client.py lines 73-91): membership test in
the unit table, `ValueError` naming the acronym when absent, else the
record's `IdUnidade` field. -/
def validar_unidade (c : SeiClient) (st : ClientState) (sigla_unidade : String) :
    SeiRes PyVal :=
  SeiRes.bind (unidades c st) (fun t st1 =>
    match dictGet t (PyVal.str sigla_unidade) with
    | Option.none => ⟨Except.error (.valueError ("Unidade inválida: " ++ sigla_unidade)), st1, []⟩
    | some registro =>
      match pyIndex registro (PyVal.str "IdUnidade") with
      | Except.error e => ⟨Except.error e, st1, []⟩
      | Except.ok v => ⟨Except.ok v, st1, []⟩)

/-- `SeiClient.listar_usuarios` (client.py lines 1125-1139). -/
def listar_usuarios (c : SeiClient) (st : ClientState) (id_usuario : String) :
    SeiRes PyVal :=
  chamar_servico c st "listarUsuarios"
    [("IdUnidade", c.id_unidade), ("IdUsuario", PyVal.str id_usuario)]

/-- The `usuarios` cached property (client.py lines 1354-1356). -/
def usuarios (c : SeiClient) (st : ClientState) : SeiRes Table :=
  match st.usuarios_cache with
  | some t => ⟨Except.ok t, st, []⟩
  | Option.none => populaTabela "Sigla" (listar_usuarios c st "") setUsuarios

/-- `SeiClient._validar_usuario` (client.py lines 93-111). -/
def validar_usuario (c : SeiClient) (st : ClientState) (sigla_usuario : String) :
    SeiRes PyVal :=
  SeiRes.bind (usuarios c st) (fun t st1 =>
    match dictGet t (PyVal.str sigla_usuario) with
    | Option.none => ⟨Except.error (.valueError ("Usuário inválido: " ++ sigla_usuario)), st1, []⟩
    | some registro =>
      match pyIndex registro (PyVal.str "IdUsuario") with
      | Except.error e => ⟨Except.error e, st1, []⟩
      | Except.ok v => ⟨Except.ok v, st1, []⟩)

/-- `SeiClient.listar_paises` (client.py lines 1008-1014). -/
def listar_paises (c : SeiClient) (st : ClientState) : SeiRes PyVal :=
  chamar_servico c st "listarPaises" [("IdUnidade", c.id_unidade)]

/-- The `paises` cached property (client.py lines 1342-1344). -/
def paises (c : SeiClient) (st : ClientState) : SeiRes Table :=
  match st.paises_cache with
  | some t => ⟨Except.ok t, st, []⟩
  | Option.none => populaTabela "Nome" (listar_paises c st) setPaises

/-- `SeiClient._validar_pais` (client.py lines 143-161). -/
def validar_pais (c : SeiClient) (st : ClientState) (sigla_pais : String) :
    SeiRes PyVal :=
  SeiRes.bind (paises c st) (fun t st1 =>
    match dictGet t (PyVal.str sigla_pais) with
    | Option.none => ⟨Except.error (.valueError ("Pais inválido: " ++ sigla_pais)), st1, []⟩
    | some registro =>
      match pyIndex registro (PyVal.str "IdPais") with
      | Except.error e => ⟨Except.error e, st1, []⟩
      | Except.ok v => ⟨Except.ok v, st1, []⟩)

/-- `SeiClient.listar_series` (client.py lines 1016-1045): an optional unit
filter resolved through `_validar_unidade` (the empty string means no
filter), then one `listarSeries` call. -/
def listar_series (c : SeiClient) (st : ClientState)
    (sigla_unidade : String) (id_tipo_procedimento : String) : SeiRes PyVal :=
  if sigla_unidade == "" then
    chamar_servico c st "listarSeries"
      [("IdUnidade", PyVal.str ""), ("IdTipoProcedimento", PyVal.str id_tipo_procedimento)]
  else
    SeiRes.bind (validar_unidade c st sigla_unidade) (fun id_unidade st1 =>
      chamar_servico c st1 "listarSeries"
        [("IdUnidade", id_unidade), ("IdTipoProcedimento", PyVal.str id_tipo_procedimento)])

/-- The `documentos` cached property (client.py lines 1334-1336):
`{d["Nome"]: d for d in self.listar_series()}`. -/
def documentos (c : SeiClient) (st : ClientState) : SeiRes Table :=
  match st.documentos_cache with
  | some t => ⟨Except.ok t, st, []⟩
  | Option.none => populaTabela "Nome" (listar_series c st "" "") setDocumentos

/-- `SeiClient._validar_documento` (client.py lines 113-131). -/
def validar_documento (c : SeiClient) (st : ClientState) (tipo_de_documento : String) :
    SeiRes PyVal :=
  SeiRes.bind (documentos c st) (fun t st1 =>
    match dictGet t (PyVal.str tipo_de_documento) with
    | Option.none =>
      ⟨Except.error (.valueError ("Tipo de documento inválido: " ++ tipo_de_documento)), st1, []⟩
    | some registro =>
      match pyIndex registro (PyVal.str "IdSerie") with
      | Except.error e => ⟨Except.error e, st1, []⟩
      | Except.ok v => ⟨Except.ok v, st1, []⟩)

/-- `SeiClient.listar_unidades` (client.py lines 1101-1123), general form:
an optional document-type filter resolved through `_validar_documento`, then
one `listarUnidades` call (note: no `IdUnidade` parameter). -/
def listar_unidades (c : SeiClient) (st : ClientState)
    (id_tipo_procedimento : String) (tipo_de_documento : String) : SeiRes PyVal :=
  if tipo_de_documento == "" then
    chamar_servico c st "listarUnidades"
      [("IdTipoProcedimento", PyVal.str id_tipo_procedimento), ("IdSerie", PyVal.str "")]
  else
    SeiRes.bind (validar_documento c st tipo_de_documento) (fun id_serie st1 =>
      chamar_servico c st1 "listarUnidades"
        [("IdTipoProcedimento", PyVal.str id_tipo_procedimento), ("IdSerie", id_serie)])

/-- `SeiClient._validar_booleano` (client.py lines 133-137): only the literal
strings "S" and "N" pass; the `ValueError` message names the attribute but
not the offending value. -/
def validar_booleano (atributo : String) (valor : String) : Except PyErr Unit :=
  if valor == "S" || valor == "N" then Except.ok ()
  else
    Except.error (.valueError
      ("Valor inválido para " ++ atributo ++ ". Valores possíveis: S - Sim, N - Não"))

/-- The `for key, value in locals().items(): ... assert value in ["S", "N"]`
loops of `consultar_documento`, `consultar_procedimento` and
`enviar_processo`: the first flag outside {"S", "N"} raises `AssertionError`
naming both the key and the value. -/
def verifica_sinalizadores : List (String × String) → Except PyErr Unit
  | [] => Except.ok ()
  | (chave, valor) :: resto =>
    if valor == "S" || valor == "N" then verifica_sinalizadores resto
    else Except.error (.assertionError ("Valor inválido para " ++ chave ++ ": " ++ valor))

/-- Character class `[a-zA-Z0-9_.+-]` of the email pattern. -/
def localChar (ch : Char) : Bool :=
  ch.isAlpha || ch.isDigit || ch == '_' || ch == '.' || ch == '+' || ch == '-'

/-- Character class `[a-zA-Z0-9-]` of the email pattern. -/
def domChar (ch : Char) : Bool :=
  ch.isAlpha || ch.isDigit || ch == '-'

/-- Character class `[a-zA-Z0-9-.]` of the email pattern. -/
def tailChar (ch : Char) : Bool :=
  domChar ch || ch == '.'

/-- Split a character list at the first character satisfying `p`, returning
the part before and the part after that character. -/
def splitAtFirst (p : Char → Bool) : List Char → Option (List Char × List Char)
  | [] => Option.none
  | ch :: resto =>
    if p ch then some ([], resto)
    else
      match splitAtFirst p resto with
      | some (l, r) => some (ch :: l, r)
      | Option.none => Option.none

/-- Whether `^[a-zA-Z0-9_.+-]+@[a-zA-Z0-9-]+\.[a-zA-Z0-9-.]+$` matches a
whole character list.  Since no character class contains `@`, the `@` of any
match is the first `@` of the input; likewise the `\.` is the first dot after
the `@` (the middle class excludes dots). -/
def padraoEmailNucleo (cs : List Char) : Bool :=
  match splitAtFirst (fun ch => ch == '@') cs with
  | Option.none => false
  | some (l, d) =>
    !l.isEmpty && l.all localChar &&
    (match splitAtFirst (fun ch => ch == '.') d with
     | Option.none => false
     | some (m, r) => !m.isEmpty && m.all domChar && !r.isEmpty && r.all tailChar)

/-- The Python `re.match(r"^[a-zA-Z0-9_.+-]+@[a-zA-Z0-9-]+\.[a-zA-Z0-9-.]+$", s)`
test of `_validar_email`: `$` also matches just before a single trailing
newline, so the pattern may cover the whole string or the whole string minus
one final newline. -/
def padraoEmail (s : String) : Bool :=
  padraoEmailNucleo s.data ||
    (s.data.getLast? == some '\n' && padraoEmailNucleo s.data.dropLast)

/-- `SeiClient._validar_email` (client.py lines 139-141). -/
def validar_email (email : String) : Except PyErr Unit :=
  if padraoEmail email then Except.ok ()
  else Except.error (.valueError ("Email inválido: " ++ email))

/-- `SeiClient.atribuir_processo` (client.py lines 163-189): the user login
is resolved first (which may populate the user table over the network), then
the `sin_reabrir` flag is validated, then the mutation is dispatched and its
raw result compared against the literal string "1". -/
def atribuir_processo (c : SeiClient) (st : ClientState)
    (protocolo_procedimento sigla_usuario sin_reabrir : String) : SeiRes Bool :=
  SeiRes.bind (validar_usuario c st sigla_usuario) (fun id_usuario st1 =>
    match validar_booleano "sin_reabrir" sin_reabrir with
    | Except.error e => ⟨Except.error e, st1, []⟩
    | Except.ok _ =>
      SeiRes.mapRes
        (chamar_servico c st1 "atribuirProcesso"
          [("IdUnidade", c.id_unidade),
           ("ProtocoloProcedimento", PyVal.str protocolo_procedimento),
           ("IdUsuario", id_usuario),
           ("SinReabrir", PyVal.str sin_reabrir)])
        (fun chamada => decide (chamada = PyVal.str "1")))

/-- `SeiClient.desbloquear_processo` (client.py lines 482-498): dispatch and
compare the raw result against the literal string "1". -/
def desbloquear_processo (c : SeiClient) (st : ClientState)
    (protocolo_procedimento : String) : SeiRes Bool :=
  SeiRes.mapRes
    (chamar_servico c st "desbloquearProcesso"
      [("IdUnidade", c.id_unidade),
       ("ProtocoloProcedimento", PyVal.str protocolo_procedimento)])
    (fun chamada => decide (chamada = PyVal.str "1"))

/-- The destination-unit resolution inside `enviar_processo` (client.py line
583): `[self.unidades[u]["IdUnidade"] for u in unidades_destino]`.  This is a
raw dict subscript on the unit table, so an absent acronym raises a bare
`KeyError`, not the descriptive `ValueError` of `_validar_unidade`. -/
def resolve_unidades_destino (c : SeiClient) :
    List String → ClientState → SeiRes (List PyVal)
  | [], st => ⟨Except.ok [], st, []⟩
  | u :: resto, st =>
    SeiRes.bind (unidades c st) (fun t st1 =>
      match dictGet t (PyVal.str u) with
      | Option.none => ⟨Except.error (.keyError (PyVal.str u)), st1, []⟩
      | some registro =>
        match pyIndex registro (PyVal.str "IdUnidade") with
        | Except.error e => ⟨Except.error e, st1, []⟩
        | Except.ok v =>
          SeiRes.bind (resolve_unidades_destino c resto st1)
            (fun vs st2 => ⟨Except.ok (v :: vs), st2, []⟩))

/-- `SeiClient.enviar_processo` (client.py lines 563-597): the `locals()`
assert loop checks the five `sin_*` flags (in parameter order), then the
destination acronyms are resolved, then the mutation is dispatched and its
raw result compared against "1". -/
def enviar_processo (c : SeiClient) (st : ClientState)
    (protocolo_procedimento : String) (unidades_destino : List String)
    (sin_manter_aberto_unidade sin_remover_anotacao sin_enviar_email_notificacao : String)
    (data_retorno_programado dias_retorno_programado : String)
    (sin_dias_uteis_retorno_programado sin_reabrir : String) : SeiRes Bool :=
  match verifica_sinalizadores
      [("sin_manter_aberto_unidade", sin_manter_aberto_unidade),
       ("sin_remover_anotacao", sin_remover_anotacao),
       ("sin_enviar_email_notificacao", sin_enviar_email_notificacao),
       ("sin_dias_uteis_retorno_programado", sin_dias_uteis_retorno_programado),
       ("sin_reabrir", sin_reabrir)] with
  | Except.error e => ⟨Except.error e, st, []⟩
  | Except.ok _ =>
    SeiRes.bind (resolve_unidades_destino c unidades_destino st) (fun ids st1 =>
      SeiRes.mapRes
        (chamar_servico c st1 "enviarProcesso"
          [("IdUnidade", c.id_unidade),
           ("ProtocoloProcedimento", PyVal.str protocolo_procedimento),
           ("UnidadesDestino", PyVal.list (PyList.ofList ids)),
           ("SinManterAbertoUnidade", PyVal.str sin_manter_aberto_unidade),
           ("SinRemoverAnotacao", PyVal.str sin_remover_anotacao),
           ("SinEnviarEmailNotificacao", PyVal.str sin_enviar_email_notificacao),
           ("DataRetornoProgramado", PyVal.str data_retorno_programado),
           ("DiasRetornoProgramado", PyVal.str dias_retorno_programado),
           ("SinDiasUteisRetornoProgramado", PyVal.str sin_dias_uteis_retorno_programado),
           ("SinReabrir", PyVal.str sin_reabrir)])
        (fun chamada => decide (chamada = PyVal.str "1")))

/-- `SeiClient.consultar_documento` (client.py lines 359-396): the `locals()`
assert loop checks the five `sin_retornar_*` flags, then the query is
dispatched and its result returned (this wrapper does have a `return`). -/
def consultar_documento (c : SeiClient) (st : ClientState)
    (protocolo_documento : String)
    (sin_retornar_andamento_geracao sin_retornar_assinaturas : String)
    (sin_retornar_publicacao sin_retornar_campos sin_retornar_blocos : String) :
    SeiRes PyVal :=
  match verifica_sinalizadores
      [("sin_retornar_andamento_geracao", sin_retornar_andamento_geracao),
       ("sin_retornar_assinaturas", sin_retornar_assinaturas),
       ("sin_retornar_publicacao", sin_retornar_publicacao),
       ("sin_retornar_campos", sin_retornar_campos),
       ("sin_retornar_blocos", sin_retornar_blocos)] with
  | Except.error e => ⟨Except.error e, st, []⟩
  | Except.ok _ =>
    chamar_servico c st "consultarDocumento"
      [("IdUnidade", c.id_unidade),
       ("ProtocoloDocumento", PyVal.str protocolo_documento),
       ("SinRetornarAndamentoGeracao", PyVal.str sin_retornar_andamento_geracao),
       ("SinRetornarAssinaturas", PyVal.str sin_retornar_assinaturas),
       ("SinRetornarPublicacao", PyVal.str sin_retornar_publicacao),
       ("SinRetornarCampos", PyVal.str sin_retornar_campos),
       ("SinRetornarBlocos", PyVal.str sin_retornar_blocos)]

/-- The document loop of `enviar_email` (client.py lines 547-550):
`[self.consultar_documento(self.sigla_unidade, d)["IdDocumento"] for d in documentos]`
(note the buggy positional call: the unit acronym is passed as the document
protocol and `d` as the first flag). -/
def enviar_email_docs (c : SeiClient) :
    List String → ClientState → SeiRes (List PyVal)
  | [], st => ⟨Except.ok [], st, []⟩
  | d :: resto, st =>
    SeiRes.bind (consultar_documento c st c.sigla_unidade d "N" "N" "N" "N")
      (fun r st1 =>
        match pyIndex r (PyVal.str "IdDocumento") with
        | Except.error e => ⟨Except.error e, st1, []⟩
        | Except.ok v =>
          SeiRes.bind (enviar_email_docs c resto st1)
            (fun vs st2 => ⟨Except.ok (v :: vs), st2, []⟩))

/-- `SeiClient.enviar_email` (client.py lines 522-561): the three email
fields are validated first, in order `de`, `para`, `cco`; only then are the
documents consulted and the email dispatched. -/
def enviar_email (c : SeiClient) (st : ClientState)
    (protocolo_procedimento de para cco assunto mensagem : String)
    (documentos : List String) : SeiRes PyVal :=
  match validar_email de with
  | Except.error e => ⟨Except.error e, st, []⟩
  | Except.ok _ =>
    match validar_email para with
    | Except.error e => ⟨Except.error e, st, []⟩
    | Except.ok _ =>
      match validar_email cco with
      | Except.error e => ⟨Except.error e, st, []⟩
      | Except.ok _ =>
        SeiRes.bind (enviar_email_docs c documentos st) (fun ids st1 =>
          chamar_servico c st1 "enviarEmail"
            [("IdUnidade", c.id_unidade),
             ("ProtocoloProcedimento", PyVal.str protocolo_procedimento),
             ("De", PyVal.str de), ("Para", PyVal.str para), ("CCO", PyVal.str cco),
             ("Assunto", PyVal.str assunto), ("Mensagem", PyVal.str mensagem),
             ("IdDocumentos", PyVal.list (PyList.ofList ids))])

/-- `SeiClient.consultar_bloco` (client.py lines 335-357): the body performs
the remote call but has no `return` statement, so the Python function always
returns `None` on success, discarding the remote payload. -/
def consultar_bloco (c : SeiClient) (st : ClientState)
    (id_bloco sin_retornar_protocolos : String) : SeiRes PyVal :=
  SeiRes.mapRes
    (chamar_servico c st "consultarBloco"
      [("IdUnidade", c.id_unidade), ("IdBloco", PyVal.str id_bloco),
       ("SinRetornarProtocolos", PyVal.str sin_retornar_protocolos)])
    (fun _ => PyVal.none)

/-- `SeiClient.gerar_bloco` (client.py lines 654-689): validates the flag and
the block type, then performs the remote call with no `return` statement, so
the Python function always returns `None` on success. -/
def gerar_bloco (c : SeiClient) (st : ClientState) (tipo descricao : String)
    (unidades_disponibilizacao : PyVal) (documentos_bloco : List PyVal)
    (sin_disponibilizar : String) : SeiRes PyVal :=
  match validar_booleano "sin_disponibilizar" sin_disponibilizar with
  | Except.error e => ⟨Except.error e, st, []⟩
  | Except.ok _ =>
    if tipo == "A" || tipo == "R" || tipo == "I" then
      SeiRes.mapRes
        (chamar_servico c st "gerarBloco"
          [("IdUnidade", c.id_unidade), ("Tipo", PyVal.str tipo),
           ("Descricao", PyVal.str descricao),
           ("UnidadesDisponibilizacao", unidades_disponibilizacao),
           ("Documentos", PyVal.list (PyList.ofList documentos_bloco)),
           ("SinDisponibilizar", PyVal.str sin_disponibilizar)])
        (fun _ => PyVal.none)
    else ⟨Except.error (.assertionError ("Tipo de bloco inválido: " ++ tipo)), st, []⟩

/-- `SeiClient.listar_contatos` (client.py lines 926-964): performs the
remote call with no `return` statement, so the Python function always
returns `None` on success. -/
def listar_contatos (c : SeiClient) (st : ClientState)
    (id_tipo_contato : String) (pagina_registros pagina_atual : Int)
    (sigla nome cpf cnpj matricula id_contatos : String) : SeiRes PyVal :=
  SeiRes.mapRes
    (chamar_servico c st "listarContatos"
      [("IdUnidade", c.id_unidade), ("IdTipoContato", PyVal.str id_tipo_contato),
       ("PaginaRegistros", PyVal.int pagina_registros),
       ("PaginaAtual", PyVal.int pagina_atual),
       ("Sigla", PyVal.str sigla), ("Nome", PyVal.str nome), ("Cpf", PyVal.str cpf),
       ("Cnpj", PyVal.str cnpj), ("Matricula", PyVal.str matricula),
       ("IdContatos", PyVal.str id_contatos)])
    (fun _ => PyVal.none)

/-- Iterated access to a cached-property table: `acessosProp prop n` performs
`n + 1` successive accesses on the same client, returning the last result and
the concatenated call log. -/
def acessosProp (prop : ClientState → SeiRes Table) : Nat → ClientState → SeiRes Table
  | 0, st => prop st
  | n + 1, st => SeiRes.bind (prop st) (fun _ st1 => acessosProp prop n st1)

/-- The single listing call dispatched when the `unidades` table is first
populated. -/
def chamada_listar_unidades (c : SeiClient) : ServiceCall :=
  mkCall c "listarUnidades" [("IdTipoProcedimento", PyVal.str ""), ("IdSerie", PyVal.str "")]

/-- The single listing call dispatched when the `usuarios` table is first
populated. -/
def chamada_listar_usuarios (c : SeiClient) : ServiceCall :=
  mkCall c "listarUsuarios" [("IdUnidade", c.id_unidade), ("IdUsuario", PyVal.str "")]

/-- The single listing call dispatched when the `documentos` table is first
populated (`listar_series` at its default arguments). -/
def chamada_listar_series (c : SeiClient) : ServiceCall :=
  mkCall c "listarSeries" [("IdUnidade", PyVal.str ""), ("IdTipoProcedimento", PyVal.str "")]

/-- The single listing call dispatched when the `paises` table is first
populated. -/
def chamada_listar_paises (c : SeiClient) : ServiceCall :=
  mkCall c "listarPaises" [("IdUnidade", c.id_unidade)]

/-- `download_wsdl` (helpers.py lines 11-44).  Only the accented environment
names "homologação" and "produção" are recognised; any other name raises
`InvalidAmbienteError`.  In the two recognised branches the code evaluates
`Path(__file__)`, but helpers.py never imports `Path`, so those branches
raise `NameError` at runtime. -/
def download_wsdl (ambiente : String) : Except PyErr String :=
  if ambiente = "homologação" then Except.error (.nameError "Path")
  else if ambiente = "produção" then Except.error (.nameError "Path")
  else Except.error (.invalidAmbiente ("Ambiente inválido: " ++ ambiente))

/-- The data a successful `instanciar_cliente_sei` would hand to the
`SeiClient` constructor (client.py lines 1363-1368). -/
structure SeiSessao where
  wsdl : String
  sigla_sistema : String
  chave_api : String
  sigla_unidade : String

/-- `instanciar_cliente_sei` (client.py lines 1359-1368): asserts the
unaccented names "homologacao"/"producao", then calls `download_wsdl`.  The
`Except.ok` branch abbreviates the SOAP client instantiation and the
`SeiClient` construction; it is unreachable because `download_wsdl` never
succeeds on the names accepted by the assertion. -/
def instanciar_cliente_sei (ambiente sigla_sistema chave_api sigla_unidade : String) :
    Except PyErr SeiSessao :=
  if ambiente = "homologacao" ∨ ambiente = "producao" then
    match download_wsdl ambiente with
    | Except.error e => Except.error e
    | Except.ok w => Except.ok ⟨w, sigla_sistema, chave_api, sigla_unidade⟩
  else Except.error (.assertionError ("Ambiente inválido: " ++ ambiente))

/-- A concrete unit record as returned by `listarUnidades`. -/
def registroFISF : PyVal :=
  PyVal.dict (.cons (.str "Sigla") (.str "FISF")
    (.cons (.str "IdUnidade") (.str "110000973") .nil))

/-- A concrete user record as returned by `listarUsuarios`. -/
def registroUsuario : PyVal :=
  PyVal.dict (.cons (.str "Sigla") (.str "u1")
    (.cons (.str "IdUsuario") (.str "100001310") .nil))

/-- A concrete block record as returned by `consultarBloco`. -/
def registroBloco : PyVal :=
  PyVal.dict (.cons (.str "IdBloco") (.str "3754")
    (.cons (.str "Descricao") (.str "Bloco de assinatura") .nil))

/-- A concrete document record as returned by `consultarDocumento`. -/
def registroDocumento : PyVal :=
  PyVal.dict (.cons (.str "IdDocumento") (.str "0208319") .nil)

/-- A deterministic mock transport: fixed directory listings, fixed payloads
for the queries, "1" for `atribuirProcesso`, "0" for `desbloquearProcesso`,
and a SOAP fault for every other operation. -/
def transporte_exemplo (sc : ServiceCall) : Except PyErr PyVal :=
  if sc.operacao == "listarUnidades" then
    Except.ok (PyVal.list (.cons registroFISF .nil))
  else if sc.operacao == "listarUsuarios" then
    Except.ok (PyVal.list (.cons registroUsuario .nil))
  else if sc.operacao == "atribuirProcesso" then Except.ok (PyVal.str "1")
  else if sc.operacao == "desbloquearProcesso" then Except.ok (PyVal.str "0")
  else if sc.operacao == "consultarBloco" then Except.ok registroBloco
  else if sc.operacao == "gerarBloco" then Except.ok (PyVal.str "3755")
  else if sc.operacao == "consultarDocumento" then Except.ok registroDocumento
  else if sc.operacao == "listarContatos" then
    Except.ok (PyVal.list (.cons registroDocumento .nil))
  else Except.error (.fault "SOAP fault")

/-- A concrete client session over the mock transport. -/
def clienteExemplo : SeiClient :=
  ⟨transporte_exemplo, "InovaFiscaliza", "chave-api", "FISF", PyVal.str "110000973"⟩

/-- The unit table the mock listing produces. -/
def tabelaUnidadesExemplo : Table := [(PyVal.str "FISF", registroFISF)]

/-- The user table the mock listing produces. -/
def tabelaUsuariosExemplo : Table := [(PyVal.str "u1", registroUsuario)]

/-! ## Helper lemmas -/

theorem SeiRes.bind_mk_ok {α β : Type} (a : α) (st : ClientState) (lg : List ServiceCall)
    (f : α → ClientState → SeiRes β) :
    SeiRes.bind ⟨Except.ok a, st, lg⟩ f =
      ⟨(f a st).res, (f a st).state, lg ++ (f a st).log⟩ := rfl

theorem SeiRes.bind_mk_error {α β : Type} (e : PyErr) (st : ClientState)
    (lg : List ServiceCall) (f : α → ClientState → SeiRes β) :
    SeiRes.bind ⟨Except.error e, st, lg⟩ f = ⟨Except.error e, st, lg⟩ := rfl

theorem SeiRes.mapRes_mk_ok {α β : Type} (a : α) (st : ClientState)
    (lg : List ServiceCall) (f : α → β) :
    SeiRes.mapRes ⟨Except.ok a, st, lg⟩ f = ⟨Except.ok (f a), st, lg⟩ := rfl

theorem SeiRes.mapRes_mk_error {α β : Type} (e : PyErr) (st : ClientState)
    (lg : List ServiceCall) (f : α → β) :
    SeiRes.mapRes ⟨Except.error e, st, lg⟩ f = ⟨Except.error e, st, lg⟩ := rfl

theorem chamar_servico_ok (c : SeiClient) (st : ClientState) (nome : String)
    (kwargs : List (String × PyVal)) (resposta : PyVal)
    (hdup : kwargs.any (fun p => p.1 == "SiglaSistema" || p.1 == "IdentificacaoServico") = false)
    (ht : c.transport (mkCall c nome kwargs) = Except.ok resposta) :
    chamar_servico c st nome kwargs = ⟨Except.ok resposta, st, [mkCall c nome kwargs]⟩ := by
  simp [chamar_servico, hdup, ht]

theorem chamar_servico_error (c : SeiClient) (st : ClientState) (nome : String)
    (kwargs : List (String × PyVal)) (e : PyErr)
    (hdup : kwargs.any (fun p => p.1 == "SiglaSistema" || p.1 == "IdentificacaoServico") = false)
    (ht : c.transport (mkCall c nome kwargs) = Except.error e) :
    chamar_servico c st nome kwargs = ⟨Except.error e, st, [mkCall c nome kwargs]⟩ := by
  simp [chamar_servico, hdup, ht]

theorem populaTabela_res_ok (keyName : String) (r : SeiRes PyVal)
    (store : Table → ClientState → ClientState) (resp : PyVal) (xs : List PyVal) (t : Table)
    (h1 : r.res = Except.ok resp) (h2 : asIter resp = Except.ok xs)
    (h3 : buildTable keyName xs = Except.ok t) :
    populaTabela keyName r store = ⟨Except.ok t, store t r.state, r.log⟩ := by
  simp [populaTabela, h1, h2, h3]

theorem populaTabela_log (keyName : String) (r : SeiRes PyVal)
    (store : Table → ClientState → ClientState) :
    (populaTabela keyName r store).log = r.log := by
  cases h1 : r.res with
  | error e => simp [populaTabela, h1]
  | ok resp =>
    cases h2 : asIter resp with
    | error e => simp [populaTabela, h1, h2]
    | ok xs =>
      cases h3 : buildTable keyName xs with
      | error e => simp [populaTabela, h1, h2, h3]
      | ok t => simp [populaTabela, h1, h2, h3]

theorem populaTabela_ok_inv (keyName : String) (r : SeiRes PyVal)
    (store : Table → ClientState → ClientState) (t : Table)
    (h : (populaTabela keyName r store).res = Except.ok t) :
    populaTabela keyName r store = ⟨Except.ok t, store t r.state, r.log⟩ := by
  cases h1 : r.res with
  | error e => simp [populaTabela, h1] at h
  | ok resp =>
    cases h2 : asIter resp with
    | error e => simp [populaTabela, h1, h2] at h
    | ok xs =>
      cases h3 : buildTable keyName xs with
      | error e => simp [populaTabela, h1, h2, h3] at h
      | ok t2 =>
        have := populaTabela_res_ok keyName r store resp xs t2 h1 h2 h3
        rw [this] at h ⊢
        simp at h
        rw [h]

theorem listar_unidades_padrao_forma (c : SeiClient) (st : ClientState) :
    (listar_unidades_padrao c st).state = st ∧
    (listar_unidades_padrao c st).log = [chamada_listar_unidades c] := by
  unfold listar_unidades_padrao chamar_servico
  split
  · next h => simp at h
  · cases c.transport (mkCall c "listarUnidades" _) <;> simp [chamada_listar_unidades]

theorem listar_usuarios_forma (c : SeiClient) (st : ClientState) :
    (listar_usuarios c st "").state = st ∧
    (listar_usuarios c st "").log = [chamada_listar_usuarios c] := by
  unfold listar_usuarios chamar_servico
  split
  · next h => simp at h
  · cases c.transport (mkCall c "listarUsuarios" _) <;> simp [chamada_listar_usuarios]

theorem unidades_cache_hit (c : SeiClient) (st : ClientState) (t : Table)
    (h : st.unidades_cache = some t) :
    unidades c st = ⟨Except.ok t, st, []⟩ := by
  simp [unidades, h]

theorem usuarios_cache_hit (c : SeiClient) (st : ClientState) (t : Table)
    (h : st.usuarios_cache = some t) :
    usuarios c st = ⟨Except.ok t, st, []⟩ := by
  simp [usuarios, h]

theorem unidades_primeiro_acesso (c : SeiClient) (st : ClientState) (t : Table)
    (h0 : st.unidades_cache = Option.none)
    (h : (unidades c st).res = Except.ok t) :
    unidades c st = ⟨Except.ok t, setUnidades t st, [chamada_listar_unidades c]⟩ := by
  have hu : unidades c st = populaTabela "Sigla" (listar_unidades_padrao c st) setUnidades := by
    simp [unidades, h0]
  rw [hu] at h ⊢
  have h2 := populaTabela_ok_inv "Sigla" _ setUnidades t h
  rw [h2, (listar_unidades_padrao_forma c st).1, (listar_unidades_padrao_forma c st).2]

theorem usuarios_primeiro_acesso (c : SeiClient) (st : ClientState) (t : Table)
    (h0 : st.usuarios_cache = Option.none)
    (h : (usuarios c st).res = Except.ok t) :
    usuarios c st = ⟨Except.ok t, setUsuarios t st, [chamada_listar_usuarios c]⟩ := by
  have hu : usuarios c st = populaTabela "Sigla" (listar_usuarios c st "") setUsuarios := by
    simp [usuarios, h0]
  rw [hu] at h ⊢
  have h2 := populaTabela_ok_inv "Sigla" _ setUsuarios t h
  rw [h2, (listar_usuarios_forma c st).1, (listar_usuarios_forma c st).2]

theorem documentos_cache_hit (c : SeiClient) (st : ClientState) (t : Table)
    (h : st.documentos_cache = some t) :
    documentos c st = ⟨Except.ok t, st, []⟩ := by
  simp [documentos, h]

theorem paises_cache_hit (c : SeiClient) (st : ClientState) (t : Table)
    (h : st.paises_cache = some t) :
    paises c st = ⟨Except.ok t, st, []⟩ := by
  simp [paises, h]

theorem validar_usuario_cache_ok (c : SeiClient) (st : ClientState) (tu : Table)
    (registro idu : PyVal) (usr : String)
    (hcache : st.usuarios_cache = some tu)
    (hget : dictGet tu (PyVal.str usr) = some registro)
    (hidx : pyIndex registro (PyVal.str "IdUsuario") = Except.ok idu) :
    validar_usuario c st usr = ⟨Except.ok idu, st, []⟩ := by
  unfold validar_usuario
  rw [usuarios_cache_hit c st tu hcache, SeiRes.bind_mk_ok]
  simp [hget, hidx]

theorem validar_usuario_cache_ausente (c : SeiClient) (st : ClientState) (tu : Table)
    (usr : String)
    (hcache : st.usuarios_cache = some tu)
    (hget : dictGet tu (PyVal.str usr) = Option.none) :
    validar_usuario c st usr =
      ⟨Except.error (.valueError ("Usuário inválido: " ++ usr)), st, []⟩ := by
  unfold validar_usuario
  rw [usuarios_cache_hit c st tu hcache, SeiRes.bind_mk_ok]
  simp [hget]

theorem validar_unidade_cache_ok (c : SeiClient) (st : ClientState) (tu : Table)
    (registro idu : PyVal) (sigla : String)
    (hcache : st.unidades_cache = some tu)
    (hget : dictGet tu (PyVal.str sigla) = some registro)
    (hidx : pyIndex registro (PyVal.str "IdUnidade") = Except.ok idu) :
    validar_unidade c st sigla = ⟨Except.ok idu, st, []⟩ := by
  unfold validar_unidade
  rw [unidades_cache_hit c st tu hcache, SeiRes.bind_mk_ok]
  simp [hget, hidx]

theorem validar_unidade_cache_ausente (c : SeiClient) (st : ClientState) (tu : Table)
    (sigla : String)
    (hcache : st.unidades_cache = some tu)
    (hget : dictGet tu (PyVal.str sigla) = Option.none) :
    validar_unidade c st sigla =
      ⟨Except.error (.valueError ("Unidade inválida: " ++ sigla)), st, []⟩ := by
  unfold validar_unidade
  rw [unidades_cache_hit c st tu hcache, SeiRes.bind_mk_ok]
  simp [hget]

theorem validar_documento_cache_ok (c : SeiClient) (st : ClientState) (tu : Table)
    (registro ids : PyVal) (tipo : String)
    (hcache : st.documentos_cache = some tu)
    (hget : dictGet tu (PyVal.str tipo) = some registro)
    (hidx : pyIndex registro (PyVal.str "IdSerie") = Except.ok ids) :
    validar_documento c st tipo = ⟨Except.ok ids, st, []⟩ := by
  unfold validar_documento
  rw [documentos_cache_hit c st tu hcache, SeiRes.bind_mk_ok]
  simp [hget, hidx]

theorem validar_documento_cache_ausente (c : SeiClient) (st : ClientState) (tu : Table)
    (tipo : String)
    (hcache : st.documentos_cache = some tu)
    (hget : dictGet tu (PyVal.str tipo) = Option.none) :
    validar_documento c st tipo =
      ⟨Except.error (.valueError ("Tipo de documento inválido: " ++ tipo)), st, []⟩ := by
  unfold validar_documento
  rw [documentos_cache_hit c st tu hcache, SeiRes.bind_mk_ok]
  simp [hget]

theorem validar_pais_cache_ok (c : SeiClient) (st : ClientState) (tu : Table)
    (registro idp : PyVal) (sigla : String)
    (hcache : st.paises_cache = some tu)
    (hget : dictGet tu (PyVal.str sigla) = some registro)
    (hidx : pyIndex registro (PyVal.str "IdPais") = Except.ok idp) :
    validar_pais c st sigla = ⟨Except.ok idp, st, []⟩ := by
  unfold validar_pais
  rw [paises_cache_hit c st tu hcache, SeiRes.bind_mk_ok]
  simp [hget, hidx]

theorem validar_pais_cache_ausente (c : SeiClient) (st : ClientState) (tu : Table)
    (sigla : String)
    (hcache : st.paises_cache = some tu)
    (hget : dictGet tu (PyVal.str sigla) = Option.none) :
    validar_pais c st sigla =
      ⟨Except.error (.valueError ("Pais inválido: " ++ sigla)), st, []⟩ := by
  unfold validar_pais
  rw [paises_cache_hit c st tu hcache, SeiRes.bind_mk_ok]
  simp [hget]

/-- Claim C1: the mutation wrappers (`atribuir_processo`, `desbloquear_processo`)
return `True` exactly when the raw remote result equals the literal string
"1", and `False` for every other value ("0", "", `None`, or any other value):
the raw result is compared by equality against the sentinel string, never
parsed as an integer or coerced by truthiness. -/
theorem C1_coercao_sucesso_mutacao :
    (∀ (c : SeiClient) (st : ClientState) (tu : Table) (registro idu resposta : PyVal)
       (proto usr sin : String),
       st.usuarios_cache = some tu →
       dictGet tu (PyVal.str usr) = some registro →
       pyIndex registro (PyVal.str "IdUsuario") = Except.ok idu →
       (sin = "S" ∨ sin = "N") →
       c.transport (mkCall c "atribuirProcesso"
         [("IdUnidade", c.id_unidade), ("ProtocoloProcedimento", PyVal.str proto),
          ("IdUsuario", idu), ("SinReabrir", PyVal.str sin)]) = Except.ok resposta →
       atribuir_processo c st proto usr sin =
         ⟨Except.ok (decide (resposta = PyVal.str "1")), st,
          [mkCall c "atribuirProcesso"
            [("IdUnidade", c.id_unidade), ("ProtocoloProcedimento", PyVal.str proto),
             ("IdUsuario", idu), ("SinReabrir", PyVal.str sin)]]⟩) ∧
    (∀ (c : SeiClient) (st : ClientState) (resposta : PyVal) (proto : String),
       c.transport (mkCall c "desbloquearProcesso"
         [("IdUnidade", c.id_unidade), ("ProtocoloProcedimento", PyVal.str proto)]) =
           Except.ok resposta →
       desbloquear_processo c st proto =
         ⟨Except.ok (decide (resposta = PyVal.str "1")), st,
          [mkCall c "desbloquearProcesso"
            [("IdUnidade", c.id_unidade), ("ProtocoloProcedimento", PyVal.str proto)]]⟩) ∧
    (∀ resposta : PyVal, decide (resposta = PyVal.str "1") = true ↔ resposta = PyVal.str "1") := by
  refine ⟨?_, ?_, ?_⟩
  · intro c st tu registro idu resposta proto usr sin hcache hget hidx hsin htr
    unfold atribuir_processo
    rw [validar_usuario_cache_ok c st tu registro idu usr hcache hget hidx, SeiRes.bind_mk_ok]
    have hb : validar_booleano "sin_reabrir" sin = Except.ok () := by
      rcases hsin with rfl | rfl <;> rfl
    rw [hb]
    rw [chamar_servico_ok c st "atribuirProcesso" _ resposta (by simp) htr]
    rfl
  · intro c st resposta proto htr
    unfold desbloquear_processo
    rw [chamar_servico_ok c st "desbloquearProcesso" _ resposta (by simp) htr]
    rfl
  · intro resposta
    exact decide_eq_true_iff

/-- Witness for C1 at a concrete client: the transport answers "1" to the
assignment, so the wrapper returns `True`; the raw "0" answer of the unblock
operation yields `False`. -/
theorem C1_coercao_sucesso_mutacao_witness :
    atribuir_processo clienteExemplo (setUsuarios tabelaUsuariosExemplo estadoInicial)
        "53500.000124/2024-04" "u1" "S" =
      ⟨Except.ok true, setUsuarios tabelaUsuariosExemplo estadoInicial,
       [mkCall clienteExemplo "atribuirProcesso"
         [("IdUnidade", PyVal.str "110000973"),
          ("ProtocoloProcedimento", PyVal.str "53500.000124/2024-04"),
          ("IdUsuario", PyVal.str "100001310"),
          ("SinReabrir", PyVal.str "S")]]⟩ ∧
    desbloquear_processo clienteExemplo estadoInicial "53500.000124/2024-04" =
      ⟨Except.ok false, estadoInicial,
       [mkCall clienteExemplo "desbloquearProcesso"
         [("IdUnidade", PyVal.str "110000973"),
          ("ProtocoloProcedimento", PyVal.str "53500.000124/2024-04")]]⟩ := by
  constructor
  · exact C1_coercao_sucesso_mutacao.1 clienteExemplo
      (setUsuarios tabelaUsuariosExemplo estadoInicial) tabelaUsuariosExemplo
      registroUsuario (PyVal.str "100001310") (PyVal.str "1")
      "53500.000124/2024-04" "u1" "S" rfl rfl rfl (Or.inl rfl) rfl
  · exact C1_coercao_sucesso_mutacao.2.1 clienteExemplo estadoInicial (PyVal.str "0")
      "53500.000124/2024-04" rfl

/-- Claim C2: every call dispatched by `_chamar_servico` carries the session's
`SiglaSistema` and `IdentificacaoServico`, and caller-supplied keyword
arguments can never override these two fields — a caller attempting to pass
either name makes the Python call expression raise `TypeError` before any
remote dispatch. -/
theorem C2_identificacao_obrigatoria :
    ∀ (c : SeiClient) (st : ClientState) (nome : String) (kwargs : List (String × PyVal)),
      (∀ call ∈ (chamar_servico c st nome kwargs).log,
         List.lookup "SiglaSistema" call.parametros = some (PyVal.str c.sigla_sistema) ∧
         List.lookup "IdentificacaoServico" call.parametros = some (PyVal.str c.chave_api)) ∧
      (kwargs.any (fun p => p.1 == "SiglaSistema" || p.1 == "IdentificacaoServico") = true →
         chamar_servico c st nome kwargs =
           ⟨Except.error (.typeError "got multiple values for keyword argument"), st, []⟩) := by
  intro c st nome kwargs
  constructor
  · intro call hcall
    by_cases hdup : kwargs.any (fun p => p.1 == "SiglaSistema" || p.1 == "IdentificacaoServico") = true
    · simp [chamar_servico, hdup] at hcall
    · have hdup2 : kwargs.any (fun p => p.1 == "SiglaSistema" || p.1 == "IdentificacaoServico") = false :=
        Bool.not_eq_true _ ▸ eq_false_of_ne_true hdup
      have hform : call = mkCall c nome kwargs := by
        cases htr : c.transport (mkCall c nome kwargs) with
        | ok r =>
          rw [chamar_servico_ok c st nome kwargs r hdup2 htr] at hcall
          simpa using hcall
        | error e =>
          rw [chamar_servico_error c st nome kwargs e hdup2 htr] at hcall
          simpa using hcall
      subst hform
      simp [mkCall, List.lookup]
  · intro hdup
    simp [chamar_servico, hdup]

/-- Witness for C2: a dispatched call over the mock client carries the session
identification, and a caller trying to smuggle its own `SiglaSistema` gets
`TypeError` with nothing dispatched. -/
theorem C2_identificacao_obrigatoria_witness :
    (List.lookup "SiglaSistema"
        (mkCall clienteExemplo "reabrirProcesso" [("A", PyVal.none)]).parametros =
          some (PyVal.str "InovaFiscaliza") ∧
     List.lookup "IdentificacaoServico"
        (mkCall clienteExemplo "reabrirProcesso" [("A", PyVal.none)]).parametros =
          some (PyVal.str "chave-api")) ∧
    chamar_servico clienteExemplo estadoInicial "reabrirProcesso"
        [("SiglaSistema", PyVal.str "Impostor")] =
      ⟨Except.error (.typeError "got multiple values for keyword argument"),
       estadoInicial, []⟩ := by
  constructor
  · exact (C2_identificacao_obrigatoria clienteExemplo estadoInicial "reabrirProcesso"
      [("A", PyVal.none)]).1
      (mkCall clienteExemplo "reabrirProcesso" [("A", PyVal.none)]) (by decide)
  · exact (C2_identificacao_obrigatoria clienteExemplo estadoInicial "reabrirProcesso"
      [("SiglaSistema", PyVal.str "Impostor")]).2 (by decide)

/-- Claim C7: a transport-level failure in `_chamar_servico` is re-raised to
the caller unchanged after exactly one dispatch attempt, with no retry, no
translation of the exception and no local state change. -/
theorem C7_falha_transporte_repassada :
    ∀ (c : SeiClient) (st : ClientState) (nome : String)
      (kwargs : List (String × PyVal)) (e : PyErr),
      kwargs.any (fun p => p.1 == "SiglaSistema" || p.1 == "IdentificacaoServico") = false →
      c.transport (mkCall c nome kwargs) = Except.error e →
      chamar_servico c st nome kwargs = ⟨Except.error e, st, [mkCall c nome kwargs]⟩ :=
  fun c st nome kwargs e h1 h2 => chamar_servico_error c st nome kwargs e h1 h2

/-- Witness for C7: the mock transport faults on `bloquearProcesso`; the
invoker returns exactly that fault, with one dispatched call and the state
untouched. -/
theorem C7_falha_transporte_repassada_witness :
    chamar_servico clienteExemplo estadoInicial "bloquearProcesso"
        [("IdUnidade", PyVal.str "110000973")] =
      ⟨Except.error (.fault "SOAP fault"), estadoInicial,
       [mkCall clienteExemplo "bloquearProcesso" [("IdUnidade", PyVal.str "110000973")]]⟩ :=
  C7_falha_transporte_repassada clienteExemplo estadoInicial "bloquearProcesso"
    [("IdUnidade", PyVal.str "110000973")] (.fault "SOAP fault") (by decide) rfl

/-- Claim C8: `enviar_email` validates the three email fields `de`, `para`,
`cco` against the structural pattern (local part, "@", domain with at least
one dot) before anything else; a field failing the pattern raises
`ValueError` naming that exact email, with no remote call dispatched and no
state change. -/
theorem C8_validacao_email_local :
    ∀ (c : SeiClient) (st : ClientState)
      (proto de para cco assunto mensagem : String) (docs : List String),
      (padraoEmail de = false →
        enviar_email c st proto de para cco assunto mensagem docs =
          ⟨Except.error (.valueError ("Email inválido: " ++ de)), st, []⟩) ∧
      (padraoEmail de = true → padraoEmail para = false →
        enviar_email c st proto de para cco assunto mensagem docs =
          ⟨Except.error (.valueError ("Email inválido: " ++ para)), st, []⟩) ∧
      (padraoEmail de = true → padraoEmail para = true → padraoEmail cco = false →
        enviar_email c st proto de para cco assunto mensagem docs =
          ⟨Except.error (.valueError ("Email inválido: " ++ cco)), st, []⟩) := by
  intro c st proto de para cco assunto mensagem docs
  refine ⟨?_, ?_, ?_⟩
  · intro h1
    simp [enviar_email, validar_email, h1]
  · intro h1 h2
    simp [enviar_email, validar_email, h1, h2]
  · intro h1 h2 h3
    simp [enviar_email, validar_email, h1, h2, h3]

/-- Witness for C8: `de = "not-an-email"` fails the pattern and the method
raises the naming `ValueError` with an empty call log. -/
theorem C8_validacao_email_local_witness :
    enviar_email clienteExemplo estadoInicial "53500.000124/2024-04"
        "not-an-email" "a@b.co" "c@d.eu" "assunto" "mensagem" [] =
      ⟨Except.error (.valueError "Email inválido: not-an-email"), estadoInicial, []⟩ :=
  (C8_validacao_email_local clienteExemplo estadoInicial "53500.000124/2024-04"
    "not-an-email" "a@b.co" "c@d.eu" "assunto" "mensagem" []).1 (by decide)

/-- Claim C10: the environment names accepted by `instanciar_cliente_sei`'s
assertion (unaccented) are disjoint from those recognised by `download_wsdl`
(accented), so every invocation raises: either the assertion fails, or
`download_wsdl` rejects the unaccented name with the invalid-environment
error.  No invocation ever constructs a client session. -/
theorem C10_instanciar_nunca_constroi :
    (∀ ambiente sigla_sistema chave_api sigla_unidade : String,
       ∃ e : PyErr,
         instanciar_cliente_sei ambiente sigla_sistema chave_api sigla_unidade =
           Except.error e) ∧
    download_wsdl "homologacao" =
      Except.error (.invalidAmbiente "Ambiente inválido: homologacao") ∧
    download_wsdl "producao" =
      Except.error (.invalidAmbiente "Ambiente inválido: producao") ∧
    instanciar_cliente_sei "homologacao" "InovaFiscaliza" "chave-api" "FISF" =
      Except.error (.invalidAmbiente "Ambiente inválido: homologacao") ∧
    instanciar_cliente_sei "producao" "InovaFiscaliza" "chave-api" "FISF" =
      Except.error (.invalidAmbiente "Ambiente inválido: producao") ∧
    instanciar_cliente_sei "homologação" "InovaFiscaliza" "chave-api" "FISF" =
      Except.error (.assertionError "Ambiente inválido: homologação") := by
  refine ⟨?_, rfl, rfl, rfl, rfl, rfl⟩
  intro ambiente sigla_sistema chave_api sigla_unidade
  by_cases h : ambiente = "homologacao" ∨ ambiente = "producao"
  · rcases h with rfl | rfl
    · exact ⟨.invalidAmbiente "Ambiente inválido: homologacao", rfl⟩
    · exact ⟨.invalidAmbiente "Ambiente inválido: producao", rfl⟩
  · refine ⟨.assertionError ("Ambiente inválido: " ++ ambiente), ?_⟩
    unfold instanciar_cliente_sei
    rw [if_neg h]

/-- Claim C9 (code bug): `consultar_bloco`, `gerar_bloco` and
`listar_contatos` have no `return` statement, so they discard the remote
payload and return `None`, contradicting their own docstrings and return
annotations; `consultar_documento`, by contrast, passes the payload through.
Concretely: the mock transport answers a block record to `consultarBloco`
and a block number to `gerarBloco`, yet both wrappers return `None`. -/
theorem C9_wrappers_sem_return :
    consultar_bloco clienteExemplo estadoInicial "3754" "N" =
      ⟨Except.ok PyVal.none, estadoInicial,
       [mkCall clienteExemplo "consultarBloco"
         [("IdUnidade", PyVal.str "110000973"), ("IdBloco", PyVal.str "3754"),
          ("SinRetornarProtocolos", PyVal.str "N")]]⟩ ∧
    transporte_exemplo (mkCall clienteExemplo "consultarBloco"
        [("IdUnidade", PyVal.str "110000973"), ("IdBloco", PyVal.str "3754"),
         ("SinRetornarProtocolos", PyVal.str "N")]) =
      Except.ok (PyVal.dict (.cons (.str "IdBloco") (.str "3754")
        (.cons (.str "Descricao") (.str "Bloco de assinatura") .nil))) ∧
    gerar_bloco clienteExemplo estadoInicial "A" "Bloco de assinatura"
        (PyVal.dict .nil) [] "N" =
      ⟨Except.ok PyVal.none, estadoInicial,
       [mkCall clienteExemplo "gerarBloco"
         [("IdUnidade", PyVal.str "110000973"), ("Tipo", PyVal.str "A"),
          ("Descricao", PyVal.str "Bloco de assinatura"),
          ("UnidadesDisponibilizacao", PyVal.dict .nil),
          ("Documentos", PyVal.list .nil),
          ("SinDisponibilizar", PyVal.str "N")]]⟩ ∧
    transporte_exemplo (mkCall clienteExemplo "gerarBloco"
        [("IdUnidade", PyVal.str "110000973"), ("Tipo", PyVal.str "A"),
         ("Descricao", PyVal.str "Bloco de assinatura"),
         ("UnidadesDisponibilizacao", PyVal.dict .nil),
         ("Documentos", PyVal.list .nil),
         ("SinDisponibilizar", PyVal.str "N")]) = Except.ok (PyVal.str "3755") ∧
    listar_contatos clienteExemplo estadoInicial "" 1 1 "" "" "" "" "" "" =
      ⟨Except.ok PyVal.none, estadoInicial,
       [mkCall clienteExemplo "listarContatos"
         [("IdUnidade", PyVal.str "110000973"), ("IdTipoContato", PyVal.str ""),
          ("PaginaRegistros", PyVal.int 1), ("PaginaAtual", PyVal.int 1),
          ("Sigla", PyVal.str ""), ("Nome", PyVal.str ""), ("Cpf", PyVal.str ""),
          ("Cnpj", PyVal.str ""), ("Matricula", PyVal.str ""),
          ("IdContatos", PyVal.str "")]]⟩ ∧
    consultar_documento clienteExemplo estadoInicial "0003934" "N" "N" "N" "N" "N" =
      ⟨Except.ok registroDocumento, estadoInicial,
       [mkCall clienteExemplo "consultarDocumento"
         [("IdUnidade", PyVal.str "110000973"),
          ("ProtocoloDocumento", PyVal.str "0003934"),
          ("SinRetornarAndamentoGeracao", PyVal.str "N"),
          ("SinRetornarAssinaturas", PyVal.str "N"),
          ("SinRetornarPublicacao", PyVal.str "N"),
          ("SinRetornarCampos", PyVal.str "N"),
          ("SinRetornarBlocos", PyVal.str "N")]]⟩ :=
  ⟨rfl, rfl, rfl, rfl, rfl, rfl⟩

theorem listar_series_vazio_forma (c : SeiClient) (st : ClientState) :
    (listar_series c st "" "").state = st ∧
    (listar_series c st "" "").log = [chamada_listar_series c] := by
  have he : listar_series c st "" "" =
      chamar_servico c st "listarSeries"
        [("IdUnidade", PyVal.str ""), ("IdTipoProcedimento", PyVal.str "")] := rfl
  rw [he]
  unfold chamar_servico
  split
  · next h => simp at h
  · cases c.transport (mkCall c "listarSeries" _) <;> simp [chamada_listar_series]

theorem listar_paises_forma (c : SeiClient) (st : ClientState) :
    (listar_paises c st).state = st ∧
    (listar_paises c st).log = [chamada_listar_paises c] := by
  unfold listar_paises chamar_servico
  split
  · next h => simp at h
  · cases c.transport (mkCall c "listarPaises" _) <;> simp [chamada_listar_paises]

theorem documentos_primeiro_acesso (c : SeiClient) (st : ClientState) (t : Table)
    (h0 : st.documentos_cache = Option.none)
    (h : (documentos c st).res = Except.ok t) :
    documentos c st = ⟨Except.ok t, setDocumentos t st, [chamada_listar_series c]⟩ := by
  have hu : documentos c st = populaTabela "Nome" (listar_series c st "" "") setDocumentos := by
    simp [documentos, h0]
  rw [hu] at h ⊢
  have h2 := populaTabela_ok_inv "Nome" _ setDocumentos t h
  rw [h2, (listar_series_vazio_forma c st).1, (listar_series_vazio_forma c st).2]

theorem paises_primeiro_acesso (c : SeiClient) (st : ClientState) (t : Table)
    (h0 : st.paises_cache = Option.none)
    (h : (paises c st).res = Except.ok t) :
    paises c st = ⟨Except.ok t, setPaises t st, [chamada_listar_paises c]⟩ := by
  have hu : paises c st = populaTabela "Nome" (listar_paises c st) setPaises := by
    simp [paises, h0]
  rw [hu] at h ⊢
  have h2 := populaTabela_ok_inv "Nome" _ setPaises t h
  rw [h2, (listar_paises_forma c st).1, (listar_paises_forma c st).2]

theorem acessosProp_memo (prop : ClientState → SeiRes Table)
    (st st1 : ClientState) (t : Table) (lg : List ServiceCall) (n : Nat)
    (h1 : prop st = ⟨Except.ok t, st1, lg⟩)
    (h2 : prop st1 = ⟨Except.ok t, st1, []⟩) :
    acessosProp prop n st = ⟨Except.ok t, st1, lg⟩ := by
  have hrep : ∀ m, acessosProp prop m st1 = ⟨Except.ok t, st1, []⟩ := by
    intro m
    induction m with
    | zero => exact h2
    | succ m ih =>
      unfold acessosProp
      rw [h2, SeiRes.bind_mk_ok, ih]
      rfl
  cases n with
  | zero => exact h1
  | succ n =>
    unfold acessosProp
    rw [h1, SeiRes.bind_mk_ok, hrep n]
    simp

/-- Claim C5: each of the four directory tables (`unidades`, `usuarios`,
`documentos`, `paises`) is populated by exactly one listing call: `n + 1`
successive accesses in one session (for any `n`, i.e. every N >= 1) produce
the single populating listing call in total, return the same table every
time, and leave the state at the populated cache. -/
theorem C5_memoizacao_tabelas :
    (∀ (c : SeiClient) (st : ClientState) (t : Table) (n : Nat),
       st.unidades_cache = Option.none →
       (unidades c st).res = Except.ok t →
       acessosProp (unidades c) n st =
         ⟨Except.ok t, setUnidades t st, [chamada_listar_unidades c]⟩) ∧
    (∀ (c : SeiClient) (st : ClientState) (t : Table) (n : Nat),
       st.usuarios_cache = Option.none →
       (usuarios c st).res = Except.ok t →
       acessosProp (usuarios c) n st =
         ⟨Except.ok t, setUsuarios t st, [chamada_listar_usuarios c]⟩) ∧
    (∀ (c : SeiClient) (st : ClientState) (t : Table) (n : Nat),
       st.documentos_cache = Option.none →
       (documentos c st).res = Except.ok t →
       acessosProp (documentos c) n st =
         ⟨Except.ok t, setDocumentos t st, [chamada_listar_series c]⟩) ∧
    (∀ (c : SeiClient) (st : ClientState) (t : Table) (n : Nat),
       st.paises_cache = Option.none →
       (paises c st).res = Except.ok t →
       acessosProp (paises c) n st =
         ⟨Except.ok t, setPaises t st, [chamada_listar_paises c]⟩) := by
  refine ⟨?_, ?_, ?_, ?_⟩
  · intro c st t n h0 h1
    exact acessosProp_memo (unidades c) st (setUnidades t st) t
      [chamada_listar_unidades c] n (unidades_primeiro_acesso c st t h0 h1)
      (unidades_cache_hit c (setUnidades t st) t rfl)
  · intro c st t n h0 h1
    exact acessosProp_memo (usuarios c) st (setUsuarios t st) t
      [chamada_listar_usuarios c] n (usuarios_primeiro_acesso c st t h0 h1)
      (usuarios_cache_hit c (setUsuarios t st) t rfl)
  · intro c st t n h0 h1
    exact acessosProp_memo (documentos c) st (setDocumentos t st) t
      [chamada_listar_series c] n (documentos_primeiro_acesso c st t h0 h1)
      (documentos_cache_hit c (setDocumentos t st) t rfl)
  · intro c st t n h0 h1
    exact acessosProp_memo (paises c) st (setPaises t st) t
      [chamada_listar_paises c] n (paises_primeiro_acesso c st t h0 h1)
      (paises_cache_hit c (setPaises t st) t rfl)

/-- Witness for C5: over the mock transport, two accesses to the `unidades`
table and two accesses to the `usuarios` table each dispatch exactly the one
populating listing call and return the fixed table both times. -/
theorem C5_memoizacao_tabelas_witness :
    acessosProp (unidades clienteExemplo) 1 estadoInicial =
      ⟨Except.ok tabelaUnidadesExemplo, setUnidades tabelaUnidadesExemplo estadoInicial,
       [chamada_listar_unidades clienteExemplo]⟩ ∧
    acessosProp (usuarios clienteExemplo) 1 estadoInicial =
      ⟨Except.ok tabelaUsuariosExemplo, setUsuarios tabelaUsuariosExemplo estadoInicial,
       [chamada_listar_usuarios clienteExemplo]⟩ :=
  ⟨C5_memoizacao_tabelas.1 clienteExemplo estadoInicial tabelaUnidadesExemplo 1 rfl rfl,
   C5_memoizacao_tabelas.2.1 clienteExemplo estadoInicial tabelaUsuariosExemplo 1 rfl rfl⟩

/-- Counterexample to claim C6 as stated: over a transport returning a fixed
unit list, calling the method `listar_unidades()` twice on the same client
dispatches the listing call twice (the method itself is not cached; it also
returns the raw list, not a mapping). -/
theorem C6_contraexemplo_listar_unidades_duas_vezes :
    ((listar_unidades clienteExemplo estadoInicial "" "").log ++
     (listar_unidades clienteExemplo
        (listar_unidades clienteExemplo estadoInicial "" "").state "" "").log) =
      [chamada_listar_unidades clienteExemplo, chamada_listar_unidades clienteExemplo] ∧
    ((listar_unidades clienteExemplo estadoInicial "" "").log ++
     (listar_unidades clienteExemplo
        (listar_unidades clienteExemplo estadoInicial "" "").state "" "").log).length = 2 :=
  ⟨rfl, rfl⟩

/-- Claim C6 as amended: the caching lives in the `unidades` cached property,
not in the method: given a transport returning a fixed list of unit records,
two accesses to `unidades` hit the transport exactly once and return the
identical cached mapping both times, while each bare `listar_unidades()` call
dispatches the listing call again. -/
theorem C6_emendado_propriedade_unidades_memoizada :
    ∀ (c : SeiClient) (st : ClientState) (rs : PyList) (t : Table),
      st.unidades_cache = Option.none →
      c.transport (chamada_listar_unidades c) = Except.ok (PyVal.list rs) →
      buildTable "Sigla" rs.toList = Except.ok t →
      unidades c st = ⟨Except.ok t, setUnidades t st, [chamada_listar_unidades c]⟩ ∧
      unidades c (setUnidades t st) = ⟨Except.ok t, setUnidades t st, []⟩ ∧
      (listar_unidades c st "" "").log = [chamada_listar_unidades c] ∧
      (listar_unidades c (listar_unidades c st "" "").state "" "").log =
        [chamada_listar_unidades c] := by
  intro c st rs t h0 htr hbt
  have hlu : listar_unidades_padrao c st =
      ⟨Except.ok (PyVal.list rs), st, [chamada_listar_unidades c]⟩ :=
    chamar_servico_ok c st "listarUnidades"
      [("IdTipoProcedimento", PyVal.str ""), ("IdSerie", PyVal.str "")]
      (PyVal.list rs) (by decide) htr
  have hpop : unidades c st = populaTabela "Sigla" (listar_unidades_padrao c st) setUnidades := by
    simp [unidades, h0]
  have hres := populaTabela_res_ok "Sigla" (listar_unidades_padrao c st) setUnidades
    (PyVal.list rs) rs.toList t (by rw [hlu]) rfl hbt
  have h1 : (unidades c st).res = Except.ok t := by rw [hpop, hres]
  have hmet : listar_unidades c st "" "" = listar_unidades_padrao c st := rfl
  refine ⟨unidades_primeiro_acesso c st t h0 h1,
    unidades_cache_hit c (setUnidades t st) t rfl, ?_, ?_⟩
  · rw [hmet, hlu]
  · have hst : (listar_unidades c st "" "").state = st := by rw [hmet, hlu]
    rw [hst, hmet, hlu]

/-- Witness for the amended C6 over the mock transport: the first property
access dispatches the single listing call, the second is a pure cache hit
with the identical mapping. -/
theorem C6_emendado_propriedade_unidades_memoizada_witness :
    unidades clienteExemplo estadoInicial =
      ⟨Except.ok tabelaUnidadesExemplo, setUnidades tabelaUnidadesExemplo estadoInicial,
       [chamada_listar_unidades clienteExemplo]⟩ ∧
    unidades clienteExemplo (setUnidades tabelaUnidadesExemplo estadoInicial) =
      ⟨Except.ok tabelaUnidadesExemplo, setUnidades tabelaUnidadesExemplo estadoInicial, []⟩ :=
  ⟨(C6_emendado_propriedade_unidades_memoizada clienteExemplo estadoInicial
      (.cons registroFISF .nil) tabelaUnidadesExemplo rfl rfl rfl).1,
   (C6_emendado_propriedade_unidades_memoizada clienteExemplo estadoInicial
      (.cons registroFISF .nil) tabelaUnidadesExemplo rfl rfl rfl).2.1⟩

theorem SeiRes.bind_res_error {α β : Type} (r : SeiRes α) (f : α → ClientState → SeiRes β)
    (e : PyErr) (h : r.res = Except.error e) :
    SeiRes.bind r f = ⟨Except.error e, r.state, r.log⟩ := by
  simp [SeiRes.bind, h]

theorem SeiRes.bind_res_ok {α β : Type} (r : SeiRes α) (f : α → ClientState → SeiRes β)
    (a : α) (h : r.res = Except.ok a) :
    SeiRes.bind r f = ⟨(f a r.state).res, (f a r.state).state, r.log ++ (f a r.state).log⟩ := by
  simp [SeiRes.bind, h]

theorem usuarios_log_cases (c : SeiClient) (st : ClientState) :
    (usuarios c st).log = [] ∨ (usuarios c st).log = [chamada_listar_usuarios c] := by
  cases h : st.usuarios_cache with
  | some t =>
    left
    rw [usuarios_cache_hit c st t h]
  | none =>
    right
    have hu : usuarios c st = populaTabela "Sigla" (listar_usuarios c st "") setUsuarios := by
      simp [usuarios, h]
    rw [hu, populaTabela_log, (listar_usuarios_forma c st).2]

theorem validar_usuario_log (c : SeiClient) (st : ClientState) (usr : String) :
    (validar_usuario c st usr).log = (usuarios c st).log := by
  unfold validar_usuario
  cases hr : (usuarios c st).res with
  | error e => rw [SeiRes.bind_res_error _ _ e hr]
  | ok t =>
    rw [SeiRes.bind_res_ok _ _ t hr]
    cases hd : dictGet t (PyVal.str usr) with
    | none => simp [hd]
    | some registro =>
      cases hp : pyIndex registro (PyVal.str "IdUsuario") with
      | error e => simp [hd, hp]
      | ok v => simp [hd, hp]

/-- Counterexample to claim C3 as stated: on a fresh client,
`atribuir_processo` with the invalid flag "X" still dispatches the
`listarUsuarios` directory-listing call (the user resolution runs before the
flag validation), and the `ValueError` message does not identify the
offending value — the runs for "X" and for "Y" raise the identical error. -/
theorem C3_contraexemplo_sinalizador_invalido :
    atribuir_processo clienteExemplo estadoInicial "53500.000124/2024-04" "u1" "X" =
      ⟨Except.error (.valueError
         "Valor inválido para sin_reabrir. Valores possíveis: S - Sim, N - Não"),
       setUsuarios tabelaUsuariosExemplo estadoInicial,
       [chamada_listar_usuarios clienteExemplo]⟩ ∧
    atribuir_processo clienteExemplo estadoInicial "53500.000124/2024-04" "u1" "Y" =
      ⟨Except.error (.valueError
         "Valor inválido para sin_reabrir. Valores possíveis: S - Sim, N - Não"),
       setUsuarios tabelaUsuariosExemplo estadoInicial,
       [chamada_listar_usuarios clienteExemplo]⟩ :=
  ⟨rfl, rfl⟩

/-- Claim C3 as amended: a `sin_*` value outside {"S", "N"} always raises a
local validation error and the mutation is never dispatched, but (a) the
`_validar_booleano`-based error names only the field, not the value (the
assert-based loops of `consultar_documento` / `consultar_procedimento` /
`enviar_processo` do name both), and (b) in `atribuir_processo` the user
resolution runs first, so a `listarUsuarios` directory-listing call (and only
that call) may be dispatched before the validation error; with the user table
already cached no network call at all is made. -/
theorem C3_emendado_sinalizador_invalido :
    (∀ (c : SeiClient) (st : ClientState) (tu : Table) (registro idu : PyVal)
       (proto usr sin : String),
       st.usuarios_cache = some tu →
       dictGet tu (PyVal.str usr) = some registro →
       pyIndex registro (PyVal.str "IdUsuario") = Except.ok idu →
       sin ≠ "S" → sin ≠ "N" →
       atribuir_processo c st proto usr sin =
         ⟨Except.error (.valueError
            "Valor inválido para sin_reabrir. Valores possíveis: S - Sim, N - Não"),
          st, []⟩) ∧
    (∀ (c : SeiClient) (st : ClientState) (proto usr sin : String),
       sin ≠ "S" → sin ≠ "N" →
       ∀ call ∈ (atribuir_processo c st proto usr sin).log,
         call.operacao = "listarUsuarios") ∧
    (∀ chave valor : String, valor ≠ "S" → valor ≠ "N" →
       verifica_sinalizadores [(chave, valor)] =
         Except.error (.assertionError ("Valor inválido para " ++ chave ++ ": " ++ valor))) := by
  refine ⟨?_, ?_, ?_⟩
  · intro c st tu registro idu proto usr sin hcache hget hidx hS hN
    unfold atribuir_processo
    rw [validar_usuario_cache_ok c st tu registro idu usr hcache hget hidx, SeiRes.bind_mk_ok]
    have hb : validar_booleano "sin_reabrir" sin =
        Except.error (.valueError
          "Valor inválido para sin_reabrir. Valores possíveis: S - Sim, N - Não") := by
      simp [validar_booleano, hS, hN]
    rw [hb]
    rfl
  · intro c st proto usr sin hS hN call hcall
    have hb : validar_booleano "sin_reabrir" sin =
        Except.error (.valueError
          "Valor inválido para sin_reabrir. Valores possíveis: S - Sim, N - Não") := by
      simp [validar_booleano, hS, hN]
    have hlog : (atribuir_processo c st proto usr sin).log =
        (validar_usuario c st usr).log := by
      unfold atribuir_processo
      cases hr : (validar_usuario c st usr).res with
      | error e => rw [SeiRes.bind_res_error _ _ e hr]
      | ok idu =>
        rw [SeiRes.bind_res_ok _ _ idu hr, hb]
        simp
    rw [hlog, validar_usuario_log] at hcall
    rcases usuarios_log_cases c st with hc | hc
    · rw [hc] at hcall
      simp at hcall
    · rw [hc] at hcall
      simp at hcall
      rw [hcall]
      rfl
  · intro chave valor hS hN
    simp [verifica_sinalizadores, hS, hN]

/-- Witness for the amended C3: with the user table cached, the invalid flag
"X" raises the field-naming `ValueError` with no network call; the assert
loop of the other wrappers names both field and value. -/
theorem C3_emendado_sinalizador_invalido_witness :
    atribuir_processo clienteExemplo (setUsuarios tabelaUsuariosExemplo estadoInicial)
        "53500.000124/2024-04" "u1" "X" =
      ⟨Except.error (.valueError
         "Valor inválido para sin_reabrir. Valores possíveis: S - Sim, N - Não"),
       setUsuarios tabelaUsuariosExemplo estadoInicial, []⟩ ∧
    verifica_sinalizadores [("sin_reabrir", "X")] =
      Except.error (.assertionError "Valor inválido para sin_reabrir: X") :=
  ⟨C3_emendado_sinalizador_invalido.1 clienteExemplo
      (setUsuarios tabelaUsuariosExemplo estadoInicial) tabelaUsuariosExemplo
      registroUsuario (PyVal.str "100001310") "53500.000124/2024-04" "u1" "X"
      rfl rfl rfl (by decide) (by decide),
   C3_emendado_sinalizador_invalido.2.2 "sin_reabrir" "X" (by decide) (by decide)⟩

/-- Counterexample to claim C4 as stated: resolving a destination-unit
acronym absent from the unit table in `enviar_processo` raises a bare
`KeyError` carrying only the key — not a descriptive "invalid X"
`ValueError` — because line 583 subscripts the table directly instead of
going through `_validar_unidade`. -/
theorem C4_contraexemplo_enviar_processo_keyerror :
    enviar_processo clienteExemplo (setUnidades tabelaUnidadesExemplo estadoInicial)
        "53500.000124/2024-04" ["XYZ"] "N" "N" "N" "" "" "N" "S" =
      ⟨Except.error (.keyError (PyVal.str "XYZ")),
       setUnidades tabelaUnidadesExemplo estadoInicial, []⟩ :=
  rfl

/-- Claim C4 as amended: the four `_validar_*` resolvers behave as claimed —
an absent key fails with the descriptive "invalid X" `ValueError` naming the
exact key, and a present key returns the record's numeric ID field — but the
destination-unit resolution inside `enviar_processo` instead raises a bare
`KeyError` naming the key when an acronym is absent. -/
theorem C4_emendado_resolucao_diretorios :
    (∀ (c : SeiClient) (st : ClientState) (t : Table) (sigla : String),
       st.unidades_cache = some t → dictGet t (PyVal.str sigla) = Option.none →
       validar_unidade c st sigla =
         ⟨Except.error (.valueError ("Unidade inválida: " ++ sigla)), st, []⟩) ∧
    (∀ (c : SeiClient) (st : ClientState) (t : Table) (registro v : PyVal) (sigla : String),
       st.unidades_cache = some t → dictGet t (PyVal.str sigla) = some registro →
       pyIndex registro (PyVal.str "IdUnidade") = Except.ok v →
       validar_unidade c st sigla = ⟨Except.ok v, st, []⟩) ∧
    (∀ (c : SeiClient) (st : ClientState) (t : Table) (sigla : String),
       st.usuarios_cache = some t → dictGet t (PyVal.str sigla) = Option.none →
       validar_usuario c st sigla =
         ⟨Except.error (.valueError ("Usuário inválido: " ++ sigla)), st, []⟩) ∧
    (∀ (c : SeiClient) (st : ClientState) (t : Table) (registro v : PyVal) (sigla : String),
       st.usuarios_cache = some t → dictGet t (PyVal.str sigla) = some registro →
       pyIndex registro (PyVal.str "IdUsuario") = Except.ok v →
       validar_usuario c st sigla = ⟨Except.ok v, st, []⟩) ∧
    (∀ (c : SeiClient) (st : ClientState) (t : Table) (tipo : String),
       st.documentos_cache = some t → dictGet t (PyVal.str tipo) = Option.none →
       validar_documento c st tipo =
         ⟨Except.error (.valueError ("Tipo de documento inválido: " ++ tipo)), st, []⟩) ∧
    (∀ (c : SeiClient) (st : ClientState) (t : Table) (registro v : PyVal) (tipo : String),
       st.documentos_cache = some t → dictGet t (PyVal.str tipo) = some registro →
       pyIndex registro (PyVal.str "IdSerie") = Except.ok v →
       validar_documento c st tipo = ⟨Except.ok v, st, []⟩) ∧
    (∀ (c : SeiClient) (st : ClientState) (t : Table) (sigla : String),
       st.paises_cache = some t → dictGet t (PyVal.str sigla) = Option.none →
       validar_pais c st sigla =
         ⟨Except.error (.valueError ("Pais inválido: " ++ sigla)), st, []⟩) ∧
    (∀ (c : SeiClient) (st : ClientState) (t : Table) (registro v : PyVal) (sigla : String),
       st.paises_cache = some t → dictGet t (PyVal.str sigla) = some registro →
       pyIndex registro (PyVal.str "IdPais") = Except.ok v →
       validar_pais c st sigla = ⟨Except.ok v, st, []⟩) ∧
    (∀ (c : SeiClient) (st : ClientState) (t : Table) (proto u : String),
       st.unidades_cache = some t → dictGet t (PyVal.str u) = Option.none →
       enviar_processo c st proto [u] "N" "N" "N" "" "" "N" "S" =
         ⟨Except.error (.keyError (PyVal.str u)), st, []⟩) := by
  refine ⟨?_, ?_, ?_, ?_, ?_, ?_, ?_, ?_, ?_⟩
  · intro c st t sigla h1 h2
    exact validar_unidade_cache_ausente c st t sigla h1 h2
  · intro c st t registro v sigla h1 h2 h3
    exact validar_unidade_cache_ok c st t registro v sigla h1 h2 h3
  · intro c st t sigla h1 h2
    exact validar_usuario_cache_ausente c st t sigla h1 h2
  · intro c st t registro v sigla h1 h2 h3
    exact validar_usuario_cache_ok c st t registro v sigla h1 h2 h3
  · intro c st t tipo h1 h2
    exact validar_documento_cache_ausente c st t tipo h1 h2
  · intro c st t registro v tipo h1 h2 h3
    exact validar_documento_cache_ok c st t registro v tipo h1 h2 h3
  · intro c st t sigla h1 h2
    exact validar_pais_cache_ausente c st t sigla h1 h2
  · intro c st t registro v sigla h1 h2 h3
    exact validar_pais_cache_ok c st t registro v sigla h1 h2 h3
  · intro c st t proto u h1 h2
    have hres : resolve_unidades_destino c [u] st =
        ⟨Except.error (.keyError (PyVal.str u)), st, []⟩ := by
      unfold resolve_unidades_destino
      rw [unidades_cache_hit c st t h1, SeiRes.bind_mk_ok]
      simp [h2]
    unfold enviar_processo
    rw [hres]
    rfl

/-- Witness for the amended C4 over the mock tables: the unknown acronym
"XYZ" raises the naming `ValueError` in `_validar_unidade`, the known "FISF"
resolves to its `IdUnidade`, the unknown login "zz" raises the naming
`ValueError` in `_validar_usuario`, and `enviar_processo` to the unknown
destination "ABC" raises the bare `KeyError`. -/
theorem C4_emendado_resolucao_diretorios_witness :
    validar_unidade clienteExemplo (setUnidades tabelaUnidadesExemplo estadoInicial) "XYZ" =
      ⟨Except.error (.valueError "Unidade inválida: XYZ"),
       setUnidades tabelaUnidadesExemplo estadoInicial, []⟩ ∧
    validar_unidade clienteExemplo (setUnidades tabelaUnidadesExemplo estadoInicial) "FISF" =
      ⟨Except.ok (PyVal.str "110000973"),
       setUnidades tabelaUnidadesExemplo estadoInicial, []⟩ ∧
    validar_usuario clienteExemplo (setUsuarios tabelaUsuariosExemplo estadoInicial) "zz" =
      ⟨Except.error (.valueError "Usuário inválido: zz"),
       setUsuarios tabelaUsuariosExemplo estadoInicial, []⟩ ∧
    enviar_processo clienteExemplo (setUnidades tabelaUnidadesExemplo estadoInicial)
        "53500.000612/2024-11" ["ABC"] "N" "N" "N" "" "" "N" "S" =
      ⟨Except.error (.keyError (PyVal.str "ABC")),
       setUnidades tabelaUnidadesExemplo estadoInicial, []⟩ :=
  ⟨C4_emendado_resolucao_diretorios.1 clienteExemplo
      (setUnidades tabelaUnidadesExemplo estadoInicial) tabelaUnidadesExemplo "XYZ" rfl rfl,
   (C4_emendado_resolucao_diretorios.2.1) clienteExemplo
      (setUnidades tabelaUnidadesExemplo estadoInicial) tabelaUnidadesExemplo
      registroFISF (PyVal.str "110000973") "FISF" rfl rfl rfl,
   (C4_emendado_resolucao_diretorios.2.2.1) clienteExemplo
      (setUsuarios tabelaUsuariosExemplo estadoInicial) tabelaUsuariosExemplo "zz" rfl rfl,
   (C4_emendado_resolucao_diretorios.2.2.2.2.2.2.2.2) clienteExemplo
      (setUnidades tabelaUnidadesExemplo estadoInicial) tabelaUnidadesExemplo
      "53500.000612/2024-11" "ABC" rfl rfl⟩
